import Mathlib

/-!
Shallow embedding of the liveblocks client core: the client factory
(`createClient`, `getThrottleDelayFromOptions`, `prepareAuthentication`,
`enter`, `leave`, `getRoom` from `client.ts`) and the CRDT message layer
(`ClientMsg.ts`, `LiveRegister.ts`, `AbstractCrdt.ts`).

JavaScript runtime values that flow through `typeof` checks and `||`
defaulting are modelled by `JsValue`; machine state that the TS code
mutates in place is passed explicitly; code paths that `throw` return
`Except String`.
-/

set_option autoImplicit false

namespace Liveblocks

/-- A JavaScript runtime value as far as the embedded code inspects one:
the sources only ever apply `typeof v` (distinguishing numbers, strings
and functions), compare against `undefined`/`null`, and pass values
through untouched.  Numbers are rationals (the float-specific values NaN
and Infinity are outside this model); composite objects and arrays are
carried opaquely by reference identity, and functions by the identity of
their closure. -/
inductive JsValue where
  | null : JsValue
  | bool (b : Bool) : JsValue
  | num (q : Rat) : JsValue
  | str (s : String) : JsValue
  | fn (ref : Nat) : JsValue
  | compound (ref : Nat) : JsValue
  deriving DecidableEq, Repr

/-- JavaScript `x || d` for a possibly-absent string `x`: the empty string
is falsy, so it falls through to the default, as does `undefined`
(modelled by `none`). -/
def jsStringOr (x : Option String) (d : String) : String :=
  match x with
  | none => d
  | some s => if s = "" then d else s

/-- JavaScript truthiness of a possibly-absent string (`if (this.__id)`):
`undefined` and the empty string are falsy. -/
def jsTruthyStr (x : Option String) : Bool :=
  match x with
  | none => false
  | some s => s != ""

/-- `ClientOptions` from `client.ts` / `types.ts`.  `publicApiKey` and
`authEndpoint` are `JsValue`s because `prepareAuthentication` inspects
them with `typeof`; `liveblocksServer` and `publicAuthorizeEndpoint` are
read through `(clientOptions as any)` and defaulted with `||`.  `none`
models an absent / `undefined` field.  The two polyfill options are
opaque injected objects, carried by reference. -/
structure ClientOptions where
  publicApiKey : Option JsValue := none
  authEndpoint : Option JsValue := none
  throttle : Option JsValue := none
  liveblocksServer : Option String := none
  publicAuthorizeEndpoint : Option String := none
  webSocketPolyfill : Option Nat := none
  fetchPolyfill : Option Nat := none
  deriving DecidableEq, Repr

/-- The error message thrown for an out-of-range or non-numeric
`throttle` option. -/
def throttleErrorMsg : String := "throttle should be a number between 80 and 1000."

/-- `getThrottleDelayFromOptions` (`client.ts` lines 123-137): `undefined`
yields the default 100; a number outside [80, 1000] or a non-number
throws; otherwise the number itself is returned. -/
def getThrottleDelayFromOptions (options : ClientOptions) : Except String Rat :=
  match options.throttle with
  | none => Except.ok 100
  | some v =>
    match v with
    | JsValue.num q =>
      if q < 80 ∨ q > 1000 then Except.error throttleErrorMsg
      else Except.ok q
    | _ => Except.error throttleErrorMsg

/-- The default public-authorize endpoint baked into
`prepareAuthentication`. -/
def defaultPublicAuthorizeEndpoint : String := "https://liveblocks.io/api/public/authorize"

/-- The default WebSocket server URL baked into `enter`. -/
def defaultLiveblocksServer : String := "wss://liveblocks.net/v5"

/-- The error message thrown by `prepareAuthentication` when no usable
auth option is present. -/
def invalidOptionsMsg : String :=
  "Invalid Liveblocks client options. For more information: https://liveblocks.io/docs/api-reference/liveblocks-client#createClient"

/-- The `Authentication` discriminated union from `types.ts`: public key
auth (with resolved authorize URL), private URL auth, or a custom
callback (carried by closure reference). -/
inductive Authentication where
  | publicAuth (publicApiKey : String) (url : String) : Authentication
  | privateAuth (url : String) : Authentication
  | custom (callback : Nat) : Authentication
  deriving DecidableEq, Repr

/-- `prepareAuthentication` (`client.ts` lines 139-164): a string
`publicApiKey` wins and yields public auth whose url is
`publicAuthorizeEndpoint || default`; else a string `authEndpoint`
yields private auth; else a function `authEndpoint` yields custom auth;
anything else throws the documentation-URL error. -/
def prepareAuthentication (clientOptions : ClientOptions) : Except String Authentication :=
  match clientOptions.publicApiKey with
  | some (JsValue.str key) =>
    Except.ok (Authentication.publicAuth key
      (jsStringOr clientOptions.publicAuthorizeEndpoint defaultPublicAuthorizeEndpoint))
  | _ =>
    match clientOptions.authEndpoint with
    | some (JsValue.str url) => Except.ok (Authentication.privateAuth url)
    | some (JsValue.fn callback) => Except.ok (Authentication.custom callback)
    | _ => Except.error invalidOptionsMsg

/-- The first argument of `createRoom`: default presence and default
storage root, both optional JSON objects. -/
structure RoomInit where
  defaultPresence : Option (List (String × JsValue)) := none
  defaultStorageRoot : Option (List (String × JsValue)) := none
  deriving DecidableEq, Repr

/-- The second argument of `createRoom`, as assembled inside `enter`. -/
structure RoomConfig where
  room : String
  throttleDelay : Rat
  webSocketPolyfill : Option Nat
  fetchPolyfill : Option Nat
  liveblocksServer : String
  authentication : Authentication
  deriving DecidableEq, Repr

/-- Modelled from the spec: `createRoom` and `InternalRoom` live in
`room.ts`, which is not among the sources.  The spec (§4.6, §4.1) says a
room is created from its configuration in the `closed` state and that
`connect()` initiates the connection, `disconnect()` tears it down; the
claims only observe the configuration and whether `connect` was called,
so the room state is its init data, its config and a connected flag. -/
structure InternalRoom where
  init : RoomInit
  config : RoomConfig
  connected : Bool
  deriving DecidableEq, Repr

/-- Modelled from the spec: `createRoom` (in the missing `room.ts`)
builds a room from its two argument records, not yet connected. -/
def createRoom (init : RoomInit) (config : RoomConfig) : InternalRoom :=
  { init := init, config := config, connected := false }

/-- Modelled from the spec: `InternalRoom.connect` initiates the
connection. -/
def InternalRoom.connect (r : InternalRoom) : InternalRoom :=
  { r with connected := true }

/-- Modelled from the spec: `InternalRoom.disconnect` tears the
connection down. -/
def InternalRoom.disconnect (r : InternalRoom) : InternalRoom :=
  { r with connected := false }

/-- The state captured by the `createClient` closure: the options, the
validated throttle delay, and the `rooms` pool.  The pool is a JS `Map`,
so it binds each room id at most once; it is modelled as an association
list and `Map.delete` as a filter over the key. -/
structure ClientState where
  options : ClientOptions
  throttleDelay : Rat
  rooms : List (String × InternalRoom)
  deriving DecidableEq, Repr

/-- `Map.get` on the rooms pool. -/
def lookupRoom : List (String × InternalRoom) → String → Option InternalRoom
  | [], _ => none
  | (k, r) :: rest, roomId => if k = roomId then some r else lookupRoom rest roomId

/-- `createClient` (`client.ts` lines 31-121): validates the throttle
option eagerly (throwing before any room exists) and starts with an
empty pool.  The auth options are NOT inspected here; they are read
lazily by `enter`. -/
def createClient (options : ClientOptions) : Except String ClientState :=
  match getThrottleDelayFromOptions options with
  | Except.error e => Except.error e
  | Except.ok throttleDelay =>
    Except.ok { options := options, throttleDelay := throttleDelay, rooms := [] }

/-- The options record accepted by `enter`. -/
structure EnterOptions where
  defaultPresence : Option (List (String × JsValue)) := none
  defaultStorageRoot : Option (List (String × JsValue)) := none
  DO_NOT_USE_withoutConnecting : Bool := false
  deriving DecidableEq, Repr

/-- `getRoom` (`client.ts` lines 37-45): a pure pool lookup. -/
def getRoom (c : ClientState) (roomId : String) : Option InternalRoom :=
  lookupRoom c.rooms roomId

/-- `enter` (`client.ts` lines 47-89): return the pooled room if the id
is present; otherwise build a new room (evaluating
`prepareAuthentication`, whose throw propagates), store it in the pool,
connect it unless `DO_NOT_USE_withoutConnecting` is set, and return it.
In the source `connect()` is called after `rooms.set` on the same
object; the model computes the final room before pooling it, which
yields the same pool contents and return value. -/
def enter (c : ClientState) (roomId : String) (opts : EnterOptions) :
    Except String (ClientState × InternalRoom) :=
  match lookupRoom c.rooms roomId with
  | some existing => Except.ok (c, existing)
  | none =>
    match prepareAuthentication c.options with
    | Except.error e => Except.error e
    | Except.ok auth =>
      let created := createRoom
        { defaultPresence := opts.defaultPresence,
          defaultStorageRoot := opts.defaultStorageRoot }
        { room := roomId,
          throttleDelay := c.throttleDelay,
          webSocketPolyfill := c.options.webSocketPolyfill,
          fetchPolyfill := c.options.fetchPolyfill,
          liveblocksServer := jsStringOr c.options.liveblocksServer defaultLiveblocksServer,
          authentication := auth }
      let newRoom :=
        if opts.DO_NOT_USE_withoutConnecting then created else created.connect
      Except.ok ({ c with rooms := (roomId, newRoom) :: c.rooms }, newRoom)

/-- `leave` (`client.ts` lines 91-97): if the id is pooled, disconnect
that room and delete its binding.  The second component is the final
state of the evicted room (`disconnect` applied), `none` when the id was
not pooled. -/
def leave (c : ClientState) (roomId : String) : ClientState × Option InternalRoom :=
  match lookupRoom c.rooms roomId with
  | none => (c, none)
  | some room =>
    ({ c with rooms := c.rooms.filter (fun p => p.1 ≠ roomId) }, some room.disconnect)

/-- `typeof v === "string"` on a possibly-absent option value. -/
def isStringVal : Option JsValue → Bool
  | some (JsValue.str _) => true
  | _ => false

/-- `typeof v === "function"` on a possibly-absent option value. -/
def isFnVal : Option JsValue → Bool
  | some (JsValue.fn _) => true
  | _ => false

/-- The room `enter` hands back when the id was not pooled, as a function
of the data it may depend on: the client options, the validated throttle
delay, the room id and the enter options — notably NOT any previously
pooled room. -/
def freshRoomOf (options : ClientOptions) (throttleDelay : Rat) (roomId : String)
    (opts : EnterOptions) : Except String InternalRoom :=
  match prepareAuthentication options with
  | Except.error e => Except.error e
  | Except.ok auth =>
    let created := createRoom
      { defaultPresence := opts.defaultPresence,
        defaultStorageRoot := opts.defaultStorageRoot }
      { room := roomId,
        throttleDelay := throttleDelay,
        webSocketPolyfill := options.webSocketPolyfill,
        fetchPolyfill := options.fetchPolyfill,
        liveblocksServer := jsStringOr options.liveblocksServer defaultLiveblocksServer,
        authentication := auth }
    Except.ok (if opts.DO_NOT_USE_withoutConnecting then created else created.connect)

/-- The operation kinds (`OpCode` in `types.ts`, which is not among the
sources; the spec §4.3 enumerates exactly these kinds — the claims only
need the kinds to be distinguishable, not their numeric codes). -/
inductive OpCode where
  | CREATE_OBJECT : OpCode
  | CREATE_MAP : OpCode
  | CREATE_LIST : OpCode
  | CREATE_REGISTER : OpCode
  | UPDATE_OBJECT : OpCode
  | SET_PARENT_KEY : OpCode
  | DELETE_CRDT : OpCode
  deriving DecidableEq, Repr

/-- The `Op` union (per spec §4.3: each op carries an `opId`, a target
`id` and kind-specific fields; the `CREATE_REGISTER` shape is the one
built by `LiveRegister._serialize`). -/
inductive Op where
  | createObject (opId : Option String) (id : String) (parentId : String)
      (parentKey : String) : Op
  | createMap (opId : Option String) (id : String) (parentId : String)
      (parentKey : String) : Op
  | createList (opId : Option String) (id : String) (parentId : String)
      (parentKey : String) : Op
  | createRegister (opId : Option String) (id : String) (parentId : String)
      (parentKey : String) (data : JsValue) : Op
  | updateObject (opId : Option String) (id : String)
      (data : List (String × JsValue)) : Op
  | setParentKey (opId : Option String) (id : String) (parentKey : String) : Op
  | deleteCrdt (opId : Option String) (id : String) : Op
  deriving DecidableEq, Repr

/-- `op.type`: the discriminant the `_apply` switch inspects. -/
def Op.type : Op → OpCode
  | Op.createObject _ _ _ _ => OpCode.CREATE_OBJECT
  | Op.createMap _ _ _ _ => OpCode.CREATE_MAP
  | Op.createList _ _ _ _ => OpCode.CREATE_LIST
  | Op.createRegister _ _ _ _ _ => OpCode.CREATE_REGISTER
  | Op.updateObject _ _ _ => OpCode.UPDATE_OBJECT
  | Op.setParentKey _ _ _ => OpCode.SET_PARENT_KEY
  | Op.deleteCrdt _ _ => OpCode.DELETE_CRDT

/-- Modelled from the spec: `StorageUpdate` lives in `types.ts`, which is
not among the sources.  Per §4.3 it is "a typed StorageUpdate describing
the minimal delta"; the claims never inspect it, they only pass it
through, so only the identity of the updated node is kept. -/
structure StorageUpdate where
  node : String
  deriving DecidableEq, Repr

/-- `ApplyResult` from `AbstractCrdt.ts`: either a modification with its
reverse ops, or `{ modified: false }`. -/
inductive ApplyResult where
  | modified (reverse : List Op) (update : StorageUpdate) : ApplyResult
  | notModified : ApplyResult
  deriving DecidableEq, Repr

/-- The private state of an `AbstractCrdt` node (`AbstractCrdt.ts`):
`__id`, `__parent`, `__parentKey`, `__doc`.  Parent and doc are object
references in TS (compared with `!==`), modelled by `Nat` identities. -/
structure CrdtState where
  id : Option String := none
  parent : Option Nat := none
  parentKey : Option String := none
  doc : Option Nat := none
  deriving DecidableEq, Repr

/-- `AbstractCrdt._setParentLink` (`AbstractCrdt.ts` lines 257-264):
throws when a different parent is already attached (`__parent != null &&
__parent !== parent`), otherwise sets `__parentKey` then `__parent`. -/
def CrdtState.setParentLink (st : CrdtState) (parent : Nat) (key : String) :
    Except String CrdtState :=
  if st.parent ≠ none ∧ st.parent ≠ some parent then
    Except.error "Cannot attach parent if it already exist"
  else
    Except.ok { st with parentKey := some key, parent := some parent }

/-- `AbstractCrdt._attach` (`AbstractCrdt.ts` lines 269-278): throws when
`__id` is truthy or `__doc` is set; otherwise registers the node in the
doc's index (`doc.addItem`, an effect on the doc, outside this node's
state) and records the id and doc. -/
def CrdtState.attach (st : CrdtState) (id : String) (doc : Nat) :
    Except String CrdtState :=
  if jsTruthyStr st.id || st.doc.isSome then
    Except.error "Cannot attach if CRDT is already attached"
  else
    Except.ok { st with id := some id, doc := some doc }

/-- `AbstractCrdt._detach` (`AbstractCrdt.ts` lines 288-295): removes the
node from the doc index (an effect on the doc) and clears `__parent` and
`__doc` — note `__id` and `__parentKey` are NOT cleared. -/
def CrdtState.detach (st : CrdtState) : CrdtState :=
  { st with parent := none, doc := none }

/-- The base `AbstractCrdt._apply` (`AbstractCrdt.ts` lines 240-252).
It switches on `op.type`: for `DELETE_CRDT` with both `_parent` and
`_parentKey` set it returns `this._parent._detachChild(this)`; in every
other case it returns `{ modified: false }` untouched.  The parent's
`_detachChild` is a method of the concrete container (not among the
sources); it is abstracted as a callback `detachChild` receiving this
node's state and returning the node's new state together with the
container's `ApplyResult`. -/
def CrdtState.apply (st : CrdtState)
    (detachChild : CrdtState → CrdtState × ApplyResult)
    (op : Op) (_isLocal : Bool) : CrdtState × ApplyResult :=
  match op.type with
  | OpCode.DELETE_CRDT =>
    if st.parent.isSome && st.parentKey.isSome then detachChild st
    else (st, ApplyResult.notModified)
  | _ => (st, ApplyResult.notModified)

/-- A `LiveRegister` (`LiveRegister.ts`): the inherited `AbstractCrdt`
state plus the `_data` payload set by the constructor. -/
structure LiveRegisterState where
  core : CrdtState
  data : JsValue
  deriving DecidableEq, Repr

/-- The `LiveRegister` constructor: `super()` leaves the crdt state
fully detached and `_data` is the given value. -/
def LiveRegister.new (data : JsValue) : LiveRegisterState :=
  { core := {}, data := data }

/-- `LiveRegister._apply` (`LiveRegister.ts` lines 134-136): exactly
`super._apply(op, isLocal)`; the inherited behaviour acts on the
inherited `CrdtState` and the payload is untouched. -/
def LiveRegisterState.apply (r : LiveRegisterState)
    (detachChild : CrdtState → CrdtState × ApplyResult)
    (op : Op) (isLocal : Bool) : LiveRegisterState × ApplyResult :=
  match r.core.apply detachChild op isLocal with
  | (core, result) => ({ r with core := core }, result)

/-- `LiveRegister._attach`, inherited from `AbstractCrdt`. -/
def LiveRegisterState.attach (r : LiveRegisterState) (id : String) (doc : Nat) :
    Except String LiveRegisterState :=
  match r.core.attach id doc with
  | Except.error e => Except.error e
  | Except.ok core => Except.ok { r with core := core }

/-- `LiveRegister._setParentLink`, inherited from `AbstractCrdt`. -/
def LiveRegisterState.setParentLink (r : LiveRegisterState) (parent : Nat)
    (key : String) : Except String LiveRegisterState :=
  match r.core.setParentLink parent key with
  | Except.error e => Except.error e
  | Except.ok core => Except.ok { r with core := core }

/-- `LiveRegister._detach`, inherited from `AbstractCrdt`. -/
def LiveRegisterState.detach (r : LiveRegisterState) : LiveRegisterState :=
  { r with core := r.core.detach }

/-- The `Doc` handle as far as `_serialize` uses it: `generateOpId`
produces "actor:counter" strings from a per-doc counter. -/
structure Doc where
  actor : Nat
  opIdCounter : Nat
  deriving DecidableEq, Repr

/-- `doc.generateOpId()`. -/
def Doc.generateOpId (d : Doc) : String :=
  toString d.actor ++ ":" ++ toString d.opIdCounter

/-- `LiveRegister._serialize` (`LiveRegister.ts` lines 89-106): throws
when `this._id == null` (`parentId` and `parentKey` are non-nullable
strings in this embedding, so the other two disjuncts of the source's
check cannot fire), otherwise returns the single `CREATE_REGISTER` op. -/
def LiveRegisterState.serialize (r : LiveRegisterState) (parentId : String)
    (parentKey : String) (doc : Option Doc) : Except String (List Op) :=
  match r.core.id with
  | none =>
    Except.error "Cannot serialize register if parentId or parentKey is undefined"
  | some id =>
    Except.ok [Op.createRegister (doc.map Doc.generateOpId) id parentId parentKey r.data]

/-- `LiveRegister._deserialize` (`LiveRegister.ts` lines 76-84): builds a
fresh register from the serialized data then `_attach`es it. -/
def LiveRegister.deserialize (id : String) (data : JsValue) (doc : Nat) :
    Except String LiveRegisterState :=
  (LiveRegister.new data).attach id doc

/-- `ClientMsgCode` (`ClientMsg.ts` lines 4-12). -/
inductive ClientMsgCode where
  | UPDATE_PRESENCE : ClientMsgCode
  | BROADCAST_EVENT : ClientMsgCode
  | FETCH_STORAGE : ClientMsgCode
  | UPDATE_STORAGE : ClientMsgCode
  deriving DecidableEq, Repr

/-- The numeric values the `ClientMsgCode` enum assigns. -/
def ClientMsgCode.code : ClientMsgCode → Nat
  | ClientMsgCode.UPDATE_PRESENCE => 100
  | ClientMsgCode.BROADCAST_EVENT => 103
  | ClientMsgCode.FETCH_STORAGE => 200
  | ClientMsgCode.UPDATE_STORAGE => 201

/-- The `ClientMsg` union (`ClientMsg.ts` lines 17-44): the four message
shapes a client can send.  Presence data is a JSON object. -/
inductive ClientMsg where
  | updatePresence (data : List (String × JsValue)) (targetActor : Option Nat) : ClientMsg
  | broadcastEvent (event : JsValue) : ClientMsg
  | updateStorage (ops : List Op) : ClientMsg
  | fetchStorage : ClientMsg
  deriving DecidableEq, Repr

/-- The `type` field each message shape carries. -/
def ClientMsg.msgType : ClientMsg → ClientMsgCode
  | ClientMsg.updatePresence _ _ => ClientMsgCode.UPDATE_PRESENCE
  | ClientMsg.broadcastEvent _ => ClientMsgCode.BROADCAST_EVENT
  | ClientMsg.updateStorage _ => ClientMsgCode.UPDATE_STORAGE
  | ClientMsg.fetchStorage => ClientMsgCode.FETCH_STORAGE

/-- Sample client options used by concrete witnesses: only a public API
key. -/
def sampleOptions : ClientOptions :=
  { publicApiKey := some (JsValue.str "pk_x") }

/-- The room `enter` builds for room id "r1" on a client with
`sampleOptions` and throttle delay 100, with the given connected flag;
used by concrete witnesses. -/
def sampleRoom (connected : Bool) : InternalRoom where
  init := {}
  config :=
    { room := "r1"
      throttleDelay := 100
      webSocketPolyfill := none
      fetchPolyfill := none
      liveblocksServer := defaultLiveblocksServer
      authentication := Authentication.publicAuth "pk_x" defaultPublicAuthorizeEndpoint }
  connected := connected

/-! Helper lemmas shared by the claim theorems. -/

/-- Deleting a key from the pool makes subsequent lookups of it miss. -/
theorem lookupRoom_filter_ne (rooms : List (String × InternalRoom)) (roomId : String) :
    lookupRoom (rooms.filter (fun p => p.1 ≠ roomId)) roomId = none := by
  induction rooms with
  | nil => rfl
  | cons hd tl ih =>
    rw [List.filter_cons]
    by_cases h : hd.1 = roomId
    · rw [if_neg (by simp [h])]
      exact ih
    · rw [if_pos (by simp [h])]
      simpa [lookupRoom, h] using ih

/-- After `leave`, the room id is no longer pooled. -/
theorem lookupRoom_leave (c : ClientState) (roomId : String) :
    lookupRoom (leave c roomId).1.rooms roomId = none := by
  unfold leave
  cases h : lookupRoom c.rooms roomId with
  | none => simpa using h
  | some room => simpa using lookupRoom_filter_ne c.rooms roomId

/-- When the id is not pooled, the room `enter` returns is `freshRoomOf`
of the client's options and throttle delay alone. -/
theorem enter_not_pooled (c : ClientState) (roomId : String) (opts : EnterOptions)
    (h : lookupRoom c.rooms roomId = none) :
    Except.map (fun p => p.2) (enter c roomId opts) =
      freshRoomOf c.options c.throttleDelay roomId opts := by
  unfold enter freshRoomOf
  rw [h]
  cases prepareAuthentication c.options <;> rfl

/-- C1: if `throttle` is undefined the delay is 100; a number in
[80, 1000] is used as the delay; any other value makes `createClient`
throw "throttle should be a number between 80 and 1000." synchronously,
with no room in existence (the pool of a successfully built client
starts empty). -/
theorem createClient_throttle_spec (options : ClientOptions) :
    (options.throttle = none →
      createClient options =
        Except.ok { options := options, throttleDelay := 100, rooms := [] })
    ∧ (∀ q : Rat, options.throttle = some (JsValue.num q) → 80 ≤ q → q ≤ 1000 →
      createClient options =
        Except.ok { options := options, throttleDelay := q, rooms := [] })
    ∧ (∀ q : Rat, options.throttle = some (JsValue.num q) → (q < 80 ∨ 1000 < q) →
      createClient options = Except.error throttleErrorMsg)
    ∧ (∀ v : JsValue, options.throttle = some v → (∀ q : Rat, v ≠ JsValue.num q) →
      createClient options = Except.error throttleErrorMsg) := by
  refine ⟨?_, ?_, ?_, ?_⟩
  · intro h
    simp [createClient, getThrottleDelayFromOptions, h]
  · intro q h h80 h1000
    have hcond : ¬(q < 80 ∨ q > 1000) := by
      rw [not_or]
      exact ⟨not_lt.mpr h80, not_lt.mpr h1000⟩
    simp [createClient, getThrottleDelayFromOptions, h, hcond]
  · intro q h hcond
    simp [createClient, getThrottleDelayFromOptions, h, hcond]
  · intro v h hnum
    cases v with
    | num q => exact absurd rfl (hnum q)
    | null => simp [createClient, getThrottleDelayFromOptions, h]
    | bool b => simp [createClient, getThrottleDelayFromOptions, h]
    | str s => simp [createClient, getThrottleDelayFromOptions, h]
    | fn f => simp [createClient, getThrottleDelayFromOptions, h]
    | compound r => simp [createClient, getThrottleDelayFromOptions, h]

/-- Witness for C1: a throttle of 90 is accepted verbatim. -/
theorem createClient_throttle_spec_witness :
    createClient { throttle := some (JsValue.num 90) } =
      Except.ok { options := { throttle := some (JsValue.num 90) },
                  throttleDelay := 90, rooms := [] } :=
  (createClient_throttle_spec { throttle := some (JsValue.num 90) }).2.1 90 rfl
    (by norm_num) (by norm_num)

/-- C5: `_setParentLink` throws "Cannot attach parent if it already
exist" exactly when a different parent is already attached (the state is
only the caller's copy, so nothing changes on the throwing path), and
otherwise records the given parent and key. -/
theorem setParentLink_spec (st : CrdtState) (parent : Nat) (key : String) :
    (∀ q : Nat, st.parent = some q → q ≠ parent →
      st.setParentLink parent key =
        Except.error "Cannot attach parent if it already exist")
    ∧ ((st.parent = none ∨ st.parent = some parent) →
      st.setParentLink parent key =
        Except.ok { st with parent := some parent, parentKey := some key }) := by
  constructor
  · intro q hq hne
    have hcond : st.parent ≠ none ∧ st.parent ≠ some parent := by
      refine ⟨by simp [hq], ?_⟩
      simp [hq]
      exact hne
    simp [CrdtState.setParentLink, hcond]
  · intro h
    have hcond : ¬(st.parent ≠ none ∧ st.parent ≠ some parent) := by
      cases h with
      | inl h => simp [h]
      | inr h => simp [h]
    simp [CrdtState.setParentLink, hcond]

/-- Witness for C5: attaching parent 2 to a node that already has parent
1 throws. -/
theorem setParentLink_spec_witness :
    CrdtState.setParentLink { parent := some 1 } 2 "key" =
      Except.error "Cannot attach parent if it already exist" :=
  (setParentLink_spec { parent := some 1 } 2 "key").1 1 rfl (by decide)

/-- C4: `LiveRegister._serialize` throws for a detached register (no id)
and for an attached one returns exactly one `CREATE_REGISTER` op built
from the register's id and value and the given parent id and key. -/
theorem liveRegister_serialize_spec (r : LiveRegisterState) (parentId parentKey : String)
    (doc : Option Doc) :
    (r.core.id = none →
      r.serialize parentId parentKey doc =
        Except.error "Cannot serialize register if parentId or parentKey is undefined")
    ∧ (∀ id : String, r.core.id = some id →
      r.serialize parentId parentKey doc =
        Except.ok [Op.createRegister (doc.map Doc.generateOpId) id parentId parentKey r.data]) := by
  constructor
  · intro h
    simp [LiveRegisterState.serialize, h]
  · intro id h
    simp [LiveRegisterState.serialize, h]

/-- Witness for C4: an attached register serializes to the single
expected `CREATE_REGISTER` op. -/
theorem liveRegister_serialize_spec_witness :
    LiveRegisterState.serialize
        { core := { id := some "1:0" }, data := JsValue.num 7 } "0:0" "key" none =
      Except.ok [Op.createRegister none "1:0" "0:0" "key" (JsValue.num 7)] :=
  (liveRegister_serialize_spec
    { core := { id := some "1:0" }, data := JsValue.num 7 } "0:0" "key" none).2 "1:0" rfl

/-- C3: a register's `_data` is never reassigned after construction: the
constructor stores the given value, and every operation the class
exposes on its state — `_apply` (for every op, both local flags, and any
behaviour of the parent container's `_detachChild` on the inherited
attachment state), `_attach`, `_setParentLink` and `_detach` — leaves
`_data` equal to the constructed value. -/
theorem liveRegister_data_immutable (d : JsValue)
    (detachChild : CrdtState → CrdtState × ApplyResult)
    (r : LiveRegisterState) (op : Op) (isLocal : Bool)
    (id key : String) (docRef parentRef : Nat) :
    (LiveRegister.new d).data = d
    ∧ (r.apply detachChild op isLocal).1.data = r.data
    ∧ (∀ r2, r.attach id docRef = Except.ok r2 → r2.data = r.data)
    ∧ (∀ r2, r.setParentLink parentRef key = Except.ok r2 → r2.data = r.data)
    ∧ r.detach.data = r.data := by
  refine ⟨rfl, rfl, ?_, ?_, rfl⟩
  · intro r2 h
    unfold LiveRegisterState.attach at h
    cases hc : r.core.attach id docRef with
    | error e => rw [hc] at h; cases h
    | ok core =>
      rw [hc] at h
      cases h
      rfl
  · intro r2 h
    unfold LiveRegisterState.setParentLink at h
    cases hc : r.core.setParentLink parentRef key with
    | error e => rw [hc] at h; cases h
    | ok core =>
      rw [hc] at h
      cases h
      rfl

/-- Witness for C3: applying `DELETE_CRDT` to an attached register (with
a detaching parent callback) and attaching a fresh register both leave
the payload untouched. -/
theorem liveRegister_data_immutable_witness :
    (LiveRegisterState.apply
        { core := { id := some "1:0", parent := some 0, parentKey := some "key", doc := some 0 },
          data := JsValue.str "v" }
        (fun s => (s.detach, ApplyResult.modified [] { node := "1:0" }))
        (Op.deleteCrdt none "1:0") true).1.data = JsValue.str "v"
    ∧ ({ core := { id := some "1:0", doc := some 0 },
         data := JsValue.str "v" } : LiveRegisterState).data = JsValue.str "v" := by
  have h := liveRegister_data_immutable (JsValue.str "v")
    (fun s => (s.detach, ApplyResult.modified [] { node := "1:0" }))
    { core := { id := some "1:0", parent := some 0, parentKey := some "key", doc := some 0 },
      data := JsValue.str "v" }
    (Op.deleteCrdt none "1:0") true "1:0" "key" 0 0
  have h2 := liveRegister_data_immutable (JsValue.str "v")
    (fun s => (s.detach, ApplyResult.modified [] { node := "1:0" }))
    (LiveRegister.new (JsValue.str "v"))
    (Op.deleteCrdt none "1:0") true "1:0" "key" 0 0
  exact ⟨h.2.1,
    h2.2.2.1 (⟨⟨some "1:0", none, none, some 0⟩, JsValue.str "v"⟩ : LiveRegisterState) rfl⟩

/-- C10: the base `_apply` returns `{ modified: false }` and leaves the
node untouched for every op other than `DELETE_CRDT`, does the same for
`DELETE_CRDT` on a node missing a parent or a parent key, and otherwise
hands the node to the parent's `_detachChild` and returns exactly its
result. -/
theorem abstractCrdt_apply_spec (st : CrdtState)
    (detachChild : CrdtState → CrdtState × ApplyResult)
    (op : Op) (isLocal : Bool) :
    (op.type ≠ OpCode.DELETE_CRDT →
      st.apply detachChild op isLocal = (st, ApplyResult.notModified))
    ∧ (op.type = OpCode.DELETE_CRDT →
      ((st.parent = none ∨ st.parentKey = none) →
        st.apply detachChild op isLocal = (st, ApplyResult.notModified))
      ∧ (st.parent ≠ none → st.parentKey ≠ none →
        st.apply detachChild op isLocal = detachChild st)) := by
  constructor
  · intro h
    unfold CrdtState.apply
    cases hop : op.type <;> simp_all
  · intro h
    constructor
    · intro hnone
      unfold CrdtState.apply
      rw [h]
      cases hnone with
      | inl hp => simp [hp]
      | inr hk => simp [hk]
    · intro hp hk
      unfold CrdtState.apply
      rw [h]
      rw [if_pos]
      simp [Option.isSome_iff_ne_none, hp, hk]

/-- Witness for C10: a `DELETE_CRDT` op on a node with parent and parent
key delegates to the detach callback; an `UPDATE_OBJECT` op is a
no-op. -/
theorem abstractCrdt_apply_spec_witness :
    CrdtState.apply { parent := some 0, parentKey := some "key" }
        (fun s => (s.detach, ApplyResult.notModified)) (Op.deleteCrdt none "1:0") true =
      (CrdtState.detach { parent := some 0, parentKey := some "key" },
        ApplyResult.notModified)
    ∧ CrdtState.apply { parent := some 0, parentKey := some "key" }
        (fun s => (s.detach, ApplyResult.notModified)) (Op.updateObject none "1:0" []) true =
      ({ parent := some 0, parentKey := some "key" }, ApplyResult.notModified) := by
  have h := abstractCrdt_apply_spec { parent := some 0, parentKey := some "key" }
    (fun s => (s.detach, ApplyResult.notModified)) (Op.deleteCrdt none "1:0") true
  have h2 := abstractCrdt_apply_spec { parent := some 0, parentKey := some "key" }
    (fun s => (s.detach, ApplyResult.notModified)) (Op.updateObject none "1:0" []) true
  exact ⟨(h.2 rfl).2 (by decide) (by decide), h2.1 (by decide)⟩

/-- C6: entering a pooled room id hands back the pooled room with the
pool untouched (nothing is created or connected); entering a fresh id
succeeds whenever `prepareAuthentication` does, pools the new room under
the id, returns that same room, and the room is connected exactly when
`DO_NOT_USE_withoutConnecting` is unset, configured from the given
options and the client's throttle delay. -/
theorem enter_spec (c : ClientState) (roomId : String) (opts : EnterOptions) :
    (∀ room, lookupRoom c.rooms roomId = some room →
      enter c roomId opts = Except.ok (c, room))
    ∧ (lookupRoom c.rooms roomId = none →
      ∀ auth, prepareAuthentication c.options = Except.ok auth →
        (enter c roomId opts).isOk = true
        ∧ (∀ c2 newRoom, enter c roomId opts = Except.ok (c2, newRoom) →
            c2.rooms = (roomId, newRoom) :: c.rooms
            ∧ c2.options = c.options
            ∧ newRoom.connected = !opts.DO_NOT_USE_withoutConnecting
            ∧ newRoom.init =
                { defaultPresence := opts.defaultPresence,
                  defaultStorageRoot := opts.defaultStorageRoot }
            ∧ newRoom.config =
                { room := roomId,
                  throttleDelay := c.throttleDelay,
                  webSocketPolyfill := c.options.webSocketPolyfill,
                  fetchPolyfill := c.options.fetchPolyfill,
                  liveblocksServer := jsStringOr c.options.liveblocksServer defaultLiveblocksServer,
                  authentication := auth })) := by
  constructor
  · intro room h
    simp [enter, h]
  · intro h auth ha
    constructor
    · simp [enter, h, ha, Except.isOk, Except.toBool]
    · intro c2 newRoom he
      rw [enter, h, ha] at he
      simp only [Except.ok.injEq, Prod.mk.injEq] at he
      obtain ⟨hc2, hroom⟩ := he
      subst hc2
      subst hroom
      cases hflag : opts.DO_NOT_USE_withoutConnecting <;>
        simp [hflag, createRoom, InternalRoom.connect]

/-- Witness for C6: entering a fresh room id on a public-key client
pools and returns a connected, fully configured room. -/
theorem enter_spec_witness :
    (enter { options := sampleOptions, throttleDelay := 100, rooms := [] } "r1" {}).isOk = true
    ∧ ({ options := sampleOptions, throttleDelay := 100, rooms := [("r1", sampleRoom true)] } : ClientState).rooms
        = [("r1", sampleRoom true)] := by
  have h := (enter_spec { options := sampleOptions, throttleDelay := 100, rooms := [] }
    "r1" {}).2 rfl (Authentication.publicAuth "pk_x" defaultPublicAuthorizeEndpoint) rfl
  refine ⟨h.1, ?_⟩
  exact (h.2 { options := sampleOptions, throttleDelay := 100, rooms := [("r1", sampleRoom true)] } (sampleRoom true) rfl).1

/-- C7: `leave` on a pooled id disconnects exactly the pooled room and
deletes its binding, so the id no longer resolves; and the room a
subsequent `enter` hands back is a function of the client's options and
throttle delay alone — two clients with equal options and delay but
arbitrary, different previously pooled rooms receive identical fresh
rooms. -/
theorem leave_enter_fresh (c : ClientState) (roomId : String) (opts : EnterOptions) :
    (∀ room, lookupRoom c.rooms roomId = some room →
      (leave c roomId).2 = some room.disconnect
      ∧ (leave c roomId).1.rooms = c.rooms.filter (fun p => p.1 ≠ roomId))
    ∧ lookupRoom (leave c roomId).1.rooms roomId = none
    ∧ (∀ c2 : ClientState, c2.options = c.options → c2.throttleDelay = c.throttleDelay →
        Except.map (fun p => p.2) (enter (leave c roomId).1 roomId opts)
          = Except.map (fun p => p.2) (enter (leave c2 roomId).1 roomId opts)) := by
  refine ⟨?_, lookupRoom_leave c roomId, ?_⟩
  · intro room h
    constructor <;> simp [leave, h]
  · intro c2 hopt hthr
    rw [enter_not_pooled _ _ _ (lookupRoom_leave c roomId),
      enter_not_pooled _ _ _ (lookupRoom_leave c2 roomId)]
    have ho : (leave c roomId).1.options = (leave c2 roomId).1.options := by
      unfold leave
      cases lookupRoom c.rooms roomId <;> cases lookupRoom c2.rooms roomId <;>
        simp [hopt]
    have ht : (leave c roomId).1.throttleDelay = (leave c2 roomId).1.throttleDelay := by
      unfold leave
      cases lookupRoom c.rooms roomId <;> cases lookupRoom c2.rooms roomId <;>
        simp [hthr]
    rw [ho, ht]

/-- Witness for C7: leaving then re-entering "r1" on two clients that
pooled different room instances (one connected, one not) yields the same
fresh connected room, and the old binding is gone. -/
theorem leave_enter_fresh_witness :
    (leave { options := sampleOptions, throttleDelay := 100, rooms := [("r1", sampleRoom true)] } "r1").2
      = some (sampleRoom false)
    ∧ Except.map (fun p => p.2)
        (enter (leave { options := sampleOptions, throttleDelay := 100, rooms := [("r1", sampleRoom true)] } "r1").1 "r1" {})
      = Except.map (fun p => p.2)
        (enter (leave { options := sampleOptions, throttleDelay := 100, rooms := [] } "r1").1 "r1" {}) := by
  have h := leave_enter_fresh { options := sampleOptions, throttleDelay := 100, rooms := [("r1", sampleRoom true)] } "r1" {}
  refine ⟨(h.1 (sampleRoom true) rfl).1, ?_⟩
  exact h.2.2 { options := sampleOptions, throttleDelay := 100, rooms := [] } rfl rfl

/-- C2 counterexample: with BOTH `publicApiKey` and a string
`authEndpoint` provided, `createClient` succeeds (and the auth
preparation also succeeds, picking the public key) — and with NEITHER
provided, `createClient` also succeeds; so construction neither requires
nor rejects "exactly one" of the two options. -/
theorem createClient_auth_mutual_exclusion_cex :
    (createClient { publicApiKey := some (JsValue.str "pk_x"),
                    authEndpoint := some (JsValue.str "/api/auth") }).isOk = true
    ∧ (createClient {}).isOk = true
    ∧ prepareAuthentication { publicApiKey := some (JsValue.str "pk_x"),
                              authEndpoint := some (JsValue.str "/api/auth") }
        = Except.ok (Authentication.publicAuth "pk_x" defaultPublicAuthorizeEndpoint) :=
  ⟨rfl, rfl, rfl⟩

/-- C2 amended: `createClient` itself succeeds or fails on the throttle
option alone; the descriptive error referencing the documentation URL is
raised by `prepareAuthentication` — reached when the first room is
created by `enter` — exactly when neither a string `publicApiKey` nor a
string-or-function `authEndpoint` is present; and when both options are
given, `publicApiKey` takes precedence (public auth, no error). -/
theorem auth_validation_spec (options : ClientOptions) :
    ((createClient options).isOk = (getThrottleDelayFromOptions options).isOk)
    ∧ (prepareAuthentication options = Except.error invalidOptionsMsg ↔
        isStringVal options.publicApiKey = false
        ∧ isStringVal options.authEndpoint = false
        ∧ isFnVal options.authEndpoint = false)
    ∧ (∀ k, options.publicApiKey = some (JsValue.str k) →
        prepareAuthentication options =
          Except.ok (Authentication.publicAuth k
            (jsStringOr options.publicAuthorizeEndpoint defaultPublicAuthorizeEndpoint)))
    ∧ (∀ c, createClient options = Except.ok c →
        prepareAuthentication options = Except.error invalidOptionsMsg →
        ∀ roomId opts, enter c roomId opts = Except.error invalidOptionsMsg) := by
  refine ⟨?_, ?_, ?_, ?_⟩
  · unfold createClient
    cases getThrottleDelayFromOptions options <;> rfl
  · unfold prepareAuthentication
    cases hpk : options.publicApiKey with
    | none =>
      cases hae : options.authEndpoint with
      | none => simp [isStringVal, isFnVal]
      | some w => cases w <;> simp [isStringVal, isFnVal]
    | some v =>
      cases v with
      | str k => simp [isStringVal, invalidOptionsMsg]
      | null =>
        cases hae : options.authEndpoint with
        | none => simp [isStringVal, isFnVal]
        | some w => cases w <;> simp [isStringVal, isFnVal]
      | bool b =>
        cases hae : options.authEndpoint with
        | none => simp [isStringVal, isFnVal]
        | some w => cases w <;> simp [isStringVal, isFnVal]
      | num q =>
        cases hae : options.authEndpoint with
        | none => simp [isStringVal, isFnVal]
        | some w => cases w <;> simp [isStringVal, isFnVal]
      | fn f =>
        cases hae : options.authEndpoint with
        | none => simp [isStringVal, isFnVal]
        | some w => cases w <;> simp [isStringVal, isFnVal]
      | compound r =>
        cases hae : options.authEndpoint with
        | none => simp [isStringVal, isFnVal]
        | some w => cases w <;> simp [isStringVal, isFnVal]
  · intro k h
    simp [prepareAuthentication, h]
  · intro c hc he roomId opts
    have hrooms : c.rooms = [] ∧ c.options = options := by
      unfold createClient at hc
      cases hd : getThrottleDelayFromOptions options with
      | error e => rw [hd] at hc; cases hc
      | ok d =>
        rw [hd] at hc
        cases hc
        exact ⟨rfl, rfl⟩
    rw [enter, hrooms.1]
    show (match prepareAuthentication c.options with
      | Except.error e => Except.error e
      | Except.ok auth => _) = _
    rw [hrooms.2, he]

/-- Witness for C2 amended: with no auth option at all, the client is
still constructed (pool empty), and the very first `enter` throws the
documentation-URL error produced by `prepareAuthentication`. -/
theorem auth_validation_spec_witness :
    prepareAuthentication {} = Except.error invalidOptionsMsg
    ∧ enter { options := {}, throttleDelay := 100, rooms := [] } "r1" {}
        = Except.error invalidOptionsMsg := by
  have h := auth_validation_spec {}
  have he : prepareAuthentication {} = Except.error invalidOptionsMsg :=
    h.2.1.mpr ⟨rfl, rfl, rfl⟩
  exact ⟨he, h.2.2.2 { options := {}, throttleDelay := 100, rooms := [] } rfl he "r1" {}⟩

/-- C8 counterexample: with `publicAuthorizeEndpoint` set to the empty
string, the url is NOT the given endpoint — JavaScript `||` treats `""`
as falsy, so the default endpoint is used instead. -/
theorem prepareAuthentication_empty_endpoint_cex :
    prepareAuthentication { publicApiKey := some (JsValue.str "pk_x"),
                            publicAuthorizeEndpoint := some "" }
      = Except.ok (Authentication.publicAuth "pk_x" defaultPublicAuthorizeEndpoint)
    ∧ prepareAuthentication { publicApiKey := some (JsValue.str "pk_x"),
                              publicAuthorizeEndpoint := some "" }
      ≠ Except.ok (Authentication.publicAuth "pk_x" "") := by
  refine ⟨rfl, ?_⟩
  intro h
  have h2 : Authentication.publicAuth "pk_x" defaultPublicAuthorizeEndpoint
      = Authentication.publicAuth "pk_x" "" := Except.ok.inj h
  have h3 : defaultPublicAuthorizeEndpoint = "" := by injection h2
  exact absurd h3 (by decide)

/-- C8 amended: a string `publicApiKey` yields public authentication
carrying that key, with url equal to `publicAuthorizeEndpoint` when that
is set to a non-empty string and the default public-authorize endpoint
when it is absent or empty; otherwise a string `authEndpoint` yields
private authentication with that URL; otherwise a function `authEndpoint`
yields custom authentication with that callback. -/
theorem prepareAuthentication_spec (options : ClientOptions) :
    (∀ k, options.publicApiKey = some (JsValue.str k) →
      prepareAuthentication options =
        Except.ok (Authentication.publicAuth k
          (jsStringOr options.publicAuthorizeEndpoint defaultPublicAuthorizeEndpoint)))
    ∧ (∀ k s, options.publicApiKey = some (JsValue.str k) →
        options.publicAuthorizeEndpoint = some s → s ≠ "" →
        prepareAuthentication options = Except.ok (Authentication.publicAuth k s))
    ∧ (∀ k, options.publicApiKey = some (JsValue.str k) →
        (options.publicAuthorizeEndpoint = none ∨ options.publicAuthorizeEndpoint = some "") →
        prepareAuthentication options =
          Except.ok (Authentication.publicAuth k defaultPublicAuthorizeEndpoint))
    ∧ (isStringVal options.publicApiKey = false →
        ∀ u, options.authEndpoint = some (JsValue.str u) →
        prepareAuthentication options = Except.ok (Authentication.privateAuth u))
    ∧ (isStringVal options.publicApiKey = false →
        ∀ f, options.authEndpoint = some (JsValue.fn f) →
        prepareAuthentication options = Except.ok (Authentication.custom f)) := by
  refine ⟨?_, ?_, ?_, ?_, ?_⟩
  · intro k h
    simp [prepareAuthentication, h]
  · intro k s h hs hne
    simp [prepareAuthentication, h, jsStringOr, hs, hne]
  · intro k h hd
    cases hd with
    | inl hd => simp [prepareAuthentication, h, jsStringOr, hd]
    | inr hd => simp [prepareAuthentication, h, jsStringOr, hd]
  · intro hpk u h
    unfold prepareAuthentication
    cases hv : options.publicApiKey with
    | none => simp [h]
    | some v =>
      cases v <;> simp_all [isStringVal, h]
  · intro hpk f h
    unfold prepareAuthentication
    cases hv : options.publicApiKey with
    | none => simp [h]
    | some v =>
      cases v <;> simp_all [isStringVal, h]

/-- Witness for C8 amended: a non-empty custom authorize endpoint is
used verbatim; a function `authEndpoint` without a public key yields
custom auth. -/
theorem prepareAuthentication_spec_witness :
    prepareAuthentication { publicApiKey := some (JsValue.str "pk_x"),
                            publicAuthorizeEndpoint := some "https://example.test/auth" }
      = Except.ok (Authentication.publicAuth "pk_x" "https://example.test/auth")
    ∧ prepareAuthentication { authEndpoint := some (JsValue.fn 7) }
      = Except.ok (Authentication.custom 7) := by
  refine ⟨?_, ?_⟩
  · exact (prepareAuthentication_spec
      { publicApiKey := some (JsValue.str "pk_x"),
        publicAuthorizeEndpoint := some "https://example.test/auth" }).2.1
      "pk_x" "https://example.test/auth" rfl rfl (by decide)
  · exact (prepareAuthentication_spec { authEndpoint := some (JsValue.fn 7) }).2.2.2.2
      rfl 7 rfl

/-- C9: the client-to-server message codes are exactly UPDATE_PRESENCE =
100, BROADCAST_EVENT = 103, FETCH_STORAGE = 200 and UPDATE_STORAGE =
201, and every `ClientMsg` is one of the four shapes, carrying its
code. -/
theorem clientMsg_codes :
    ClientMsgCode.code ClientMsgCode.UPDATE_PRESENCE = 100
    ∧ ClientMsgCode.code ClientMsgCode.BROADCAST_EVENT = 103
    ∧ ClientMsgCode.code ClientMsgCode.FETCH_STORAGE = 200
    ∧ ClientMsgCode.code ClientMsgCode.UPDATE_STORAGE = 201
    ∧ ∀ m : ClientMsg,
      (∃ data targetActor, m = ClientMsg.updatePresence data targetActor
        ∧ ClientMsgCode.code m.msgType = 100)
      ∨ (∃ event, m = ClientMsg.broadcastEvent event
        ∧ ClientMsgCode.code m.msgType = 103)
      ∨ (∃ ops, m = ClientMsg.updateStorage ops
        ∧ ClientMsgCode.code m.msgType = 201)
      ∨ (m = ClientMsg.fetchStorage ∧ ClientMsgCode.code m.msgType = 200) := by
  refine ⟨rfl, rfl, rfl, rfl, ?_⟩
  intro m
  cases m with
  | updatePresence data targetActor => exact Or.inl ⟨data, targetActor, rfl, rfl⟩
  | broadcastEvent event => exact Or.inr (Or.inl ⟨event, rfl, rfl⟩)
  | updateStorage ops => exact Or.inr (Or.inr (Or.inl ⟨ops, rfl, rfl⟩))
  | fetchStorage => exact Or.inr (Or.inr (Or.inr ⟨rfl, rfl⟩))

end Liveblocks
